import Mathlib

/-!
Verification development for the Zephyra protected-transaction programs
(protection manager, route executor, batch coordinator, proof verifier,
and the ephemeral-rollup extension).

Modelling conventions, shared by every definition below:

* Machine integers (`u8`, `u16`, `u32`, `u64`) are modelled as `Nat`,
  `i64`/`i128` as `Int`.  A Rust `as` cast is a truncating reduction
  modulo the target width (this is the language's semantics for `as`,
  independent of any build profile).
* Each program entry point `fn(ctx, args) -> Result<T>` becomes a pure
  function from the records the instruction reads and mutates (plus the
  clock values the runtime supplies) to `Except ErrorCode (records × T)`.
  A failed instruction commits nothing: the runtime discards every write
  of an invocation that returns an error, so the caller's pre-state is
  the persisted state whenever the result is `Except.error`.
* 32-byte identifiers, hashes and public keys are `List Nat` of length
  32 (one entry per byte); 64-byte signatures are `List Nat` of length
  64.
-/

set_option maxRecDepth 4000

deriving instance DecidableEq for Except

namespace Zephyra

/-- Modulus of a `u8`. -/
def u8Mod : Nat := 2 ^ 8

/-- Modulus of a `u16`. -/
def u16Mod : Nat := 2 ^ 16

/-- Modulus of a `u32`. -/
def u32Mod : Nat := 2 ^ 32

/-- Modulus of a `u64`. -/
def u64Mod : Nat := 2 ^ 64

/-- Modelled from the spec: the workspace build profile is not under
`src/`; per §7's propagation policy (a bound violation fails the
operation before mutating state, nothing is silently wrapped) and the
standard release profile of this program framework, arithmetic is
checked — an operation whose result exceeds its integer width aborts
the instruction.  `chk m n` is the checked reduction of the
mathematical result `n` at modulus `m`: `some n` when it fits, `none`
for the aborting overflow. -/
def chk (m n : Nat) : Option Nat := if n < m then some n else none

/-- Little-endian byte decomposition of a natural number into `w` bytes
(the `to_le_bytes` of an unsigned integer of width `8*w`). -/
def leBytes (w : Nat) (n : Nat) : List Nat :=
  (List.range w).map (fun i => n / 256 ^ i % 256)

/-- `to_le_bytes` of an `i64`: the little-endian bytes of its two's
complement representative in `[0, 2^64)`. -/
def i64Bytes (t : Int) : List Nat := leBytes 8 (t.emod (2 ^ 64)).toNat

/-- XOR the byte `b` into position `i` of the byte string `l`
(`l[i] ^= b`). -/
def xorAt (l : List Nat) (i : Nat) (b : Nat) : List Nat :=
  l.set i (Nat.xor (l.getD i 0) b)

/-- XOR the bytes of `src` into `dst` starting at offset `off`,
wrapping modulo 32 (`dst[(i + off) % 32] ^= src[i]`). -/
def xorInto (dst : List Nat) (off : Nat) (src : List Nat) : List Nat :=
  src.enum.foldl (fun d p => xorAt d ((p.1 + off) % 32) p.2) dst

/-- A Rust array write `l[i] ^= b` with its bounds check: an index at
or beyond the array length panics, aborting the call (`none`). -/
def xorAtB (l : List Nat) (i : Nat) (b : Nat) : Option (List Nat) :=
  if i < l.length then some (xorAt l i b) else none

/-- XOR the bytes of `src` into `dst` starting at offset `off` WITHOUT
index wrapping (`dst[off + i] ^= src[i]`), aborting at the first
out-of-bounds write as Rust array indexing does. -/
def xorIntoB (dst : List Nat) (off : Nat) (src : List Nat) :
    Option (List Nat) :=
  src.enum.foldl (fun d p => d.bind (fun l => xorAtB l (p.1 + off) p.2))
    (some dst)

/-- The all-zero 32-byte string. -/
def zeros32 : List Nat := List.replicate 32 0

/-- Transaction lifecycle states (shared by all four programs). -/
inductive TransactionStatus where
  | Pending
  | Simulating
  | Analyzing
  | Executing
  | Completed
  | Failed
deriving Repr, DecidableEq

/-- Position of a status in the linear lifecycle
`Pending → Simulating → Analyzing → Executing → Completed`, with
`Failed` after all of them; formalises the spec's status index. -/
def statusIndex : TransactionStatus → Nat
  | .Pending => 0
  | .Simulating => 1
  | .Analyzing => 2
  | .Executing => 3
  | .Completed => 4
  | .Failed => 5

/-- The `Transaction` record (identical in every program that declares
it). -/
structure Transaction where
  id : List Nat
  owner : List Nat
  input_token : List Nat
  output_token : List Nat
  input_amount : Nat
  output_amount : Nat
  risk_score : Nat
  selected_route : Nat
  status : TransactionStatus
  proof_hash : List Nat
  batch_id : Option (List Nat)
  created_at : Int
  completed_at : Option Int
deriving Repr, DecidableEq

/-- The supported venues. -/
inductive DEX where
  | Jupiter
  | Raydium
  | Orca
deriving Repr, DecidableEq

/-- A candidate venue option (identical in route executor and proof
verifier). -/
structure RouteOption where
  dex : DEX
  estimated_output : Nat
  price_impact_bps : Nat
  mev_risk_score : Nat
  liquidity_depth : Nat
deriving Repr, DecidableEq

namespace zephyra_protection_manager

/-- Error codes of the protection manager, plus `arithmeticOverflow`
modelling the abort of a checked arithmetic operation (see `Zephyra.chk`). -/
inductive ErrorCode where
  | InvalidTransactionId
  | InvalidSlippage
  | InvalidRiskScore
  | TransactionNotFound
  | Unauthorized
  | arithmeticOverflow
deriving Repr, DecidableEq

/-- Mutable policy settings of a protection account. -/
structure ProtectionSettings where
  max_slippage_bps : Nat
  max_mev_risk_score : Nat
  auto_execute : Bool
  batch_enabled : Bool
deriving Repr, DecidableEq

/-- The per-owner protection account. -/
structure ProtectionAccount where
  owner : List Nat
  total_transactions : Nat
  total_savings : Nat
  mev_attacks_blocked : Nat
  settings : ProtectionSettings
  bump : Nat
deriving Repr, DecidableEq

/-- `generate_transaction_id`: XOR the owner key at offset 0, the input
token at offset 8, the output token at offset 16 (both wrapping modulo
32), and the XOR of the little-endian amount and timestamp bytes at
offset 24, into an all-zero 32-byte identifier. -/
def generate_transaction_id (owner input_token output_token : List Nat)
    (input_amount : Nat) (timestamp : Int) : List Nat :=
  let id := xorInto zeros32 0 owner
  let id := xorInto id 8 input_token
  let id := xorInto id 16 output_token
  xorInto id 24 (List.zipWith Nat.xor (leBytes 8 input_amount) (i64Bytes timestamp))

/-- `initialize_protection`: fresh protection account with zeroed
counters and the default settings. -/
def initialize_protection (wallet_address : List Nat) (bump : Nat) :
    ProtectionAccount :=
  { owner := wallet_address
    total_transactions := 0
    total_savings := 0
    mev_attacks_blocked := 0
    settings :=
      { max_slippage_bps := 100
        max_mev_risk_score := 50
        auto_execute := true
        batch_enabled := true }
    bump := bump }

/-- `submit_transaction`: derives the transaction id, initialises the
transaction record in `Pending`, and increments the owner's
`total_transactions`.  Returns the updated protection account, the new
transaction record, and the returned id. -/
def submit_transaction (protection_account : ProtectionAccount)
    (input_token output_token : List Nat) (input_amount : Nat)
    (_min_output_amount : Nat) (now : Int) :
    Except ErrorCode (ProtectionAccount × Transaction × List Nat) :=
  let transaction_id := generate_transaction_id protection_account.owner
    input_token output_token input_amount now
  let transaction_account : Transaction :=
    { id := transaction_id
      owner := protection_account.owner
      input_token := input_token
      output_token := output_token
      input_amount := input_amount
      output_amount := 0
      risk_score := 0
      selected_route := 0
      status := .Pending
      proof_hash := zeros32
      batch_id := none
      created_at := now
      completed_at := none }
  match chk u64Mod (protection_account.total_transactions + 1) with
  | none => .error .arithmeticOverflow
  | some t =>
      .ok ({ protection_account with total_transactions := t },
           transaction_account, transaction_id)

/-- `get_transaction_status`: requires the supplied id to match the
record, then returns the stored status. -/
def get_transaction_status (transaction_account : Transaction)
    (transaction_id : List Nat) : Except ErrorCode TransactionStatus :=
  if transaction_account.id ≠ transaction_id then .error .InvalidTransactionId
  else .ok transaction_account.status

/-- `update_settings`: validates `max_slippage ≤ 1000` and
`max_mev_risk ≤ 100` before writing either settings field.  The first
component counts the record-field writes performed before the function
returns (0 on every failure path — both validations precede the first
write). -/
def update_settings (protection_account : ProtectionAccount)
    (max_slippage : Nat) (max_mev_risk : Nat) :
    Nat × Except ErrorCode ProtectionAccount :=
  if ¬ (max_slippage ≤ 1000) then (0, .error .InvalidSlippage)
  else if ¬ (max_mev_risk ≤ 100) then (0, .error .InvalidRiskScore)
  else
    (2, .ok { protection_account with
                settings := { protection_account.settings with
                                max_slippage_bps := max_slippage
                                max_mev_risk_score := max_mev_risk } })

/-- `update_risk_analysis`: requires the id to match and
`risk_score ≤ 100`; sets the risk score, sets the status to `Analyzing`
(whatever the current status is), and, when `mev_detected`, increments
the owner's `mev_attacks_blocked`. -/
def update_risk_analysis (transaction_account : Transaction)
    (protection_account : ProtectionAccount) (transaction_id : List Nat)
    (risk_score : Nat) (mev_detected : Bool) :
    Except ErrorCode (Transaction × ProtectionAccount) :=
  if transaction_account.id ≠ transaction_id then .error .InvalidTransactionId
  else if ¬ (risk_score ≤ 100) then .error .InvalidRiskScore
  else
    let transaction_account :=
      { transaction_account with risk_score := risk_score, status := .Analyzing }
    if mev_detected then
      match chk u32Mod (protection_account.mev_attacks_blocked + 1) with
      | none => .error .arithmeticOverflow
      | some b =>
          .ok (transaction_account,
               { protection_account with mev_attacks_blocked := b })
    else .ok (transaction_account, protection_account)

/-- `complete_transaction`: requires the id to match; sets the output
amount, proof hash, `Completed` status and completion time; adds
`max(0, output_amount - input_amount)` to the owner's `total_savings`. -/
def complete_transaction (transaction_account : Transaction)
    (protection_account : ProtectionAccount) (transaction_id : List Nat)
    (output_amount : Nat) (proof_hash : List Nat) (now : Int) :
    Except ErrorCode (Transaction × ProtectionAccount) :=
  if transaction_account.id ≠ transaction_id then .error .InvalidTransactionId
  else
    let transaction_account :=
      { transaction_account with
          output_amount := output_amount
          proof_hash := proof_hash
          status := .Completed
          completed_at := some now }
    let savings :=
      if output_amount > transaction_account.input_amount then
        output_amount - transaction_account.input_amount
      else 0
    match chk u64Mod (protection_account.total_savings + savings) with
    | none => .error .arithmeticOverflow
    | some s =>
        .ok (transaction_account, { protection_account with total_savings := s })

end zephyra_protection_manager

namespace batch_coordinator

/-- Error codes of the batch coordinator, plus `arithmeticOverflow`
modelling the abort of a checked arithmetic operation (see `Zephyra.chk`). -/
inductive ErrorCode where
  | InvalidBatchId
  | BatchNotPending
  | BatchFull
  | EmptyBatch
  | BatchTooYoung
  | Unauthorized
  | arithmeticOverflow
deriving Repr, DecidableEq

/-- Batch lifecycle states. -/
inductive BatchStatus where
  | Pending
  | Processing
  | Completed
  | Failed
deriving Repr, DecidableEq

/-- The batch record. -/
structure Batch where
  id : List Nat
  transactions : List (List Nat)
  transaction_count : Nat
  total_value : Nat
  status : BatchStatus
  created_at : Int
  executed_at : Option Int
  completed_at : Option Int
  execution_time_ms : Option Nat
  batch_hash : List Nat
deriving Repr, DecidableEq

/-- Aggregate result returned by the two execution entry points. -/
structure BatchExecutionResult where
  batch_id : List Nat
  successful_txs : Nat
  failed_txs : Nat
  total_savings : Nat
  execution_time_ms : Nat
deriving Repr, DecidableEq

/-- `MAX_BATCH_SIZE`. -/
def MAX_BATCH_SIZE : Nat := 10

/-- `MIN_BATCH_AGE_SECONDS`. -/
def MIN_BATCH_AGE_SECONDS : Int := 30

/-- `generate_batch_id`: XOR the authority key at offset 0, the
little-endian timestamp bytes at offset 8 and the little-endian slot
bytes at offset 16 into an all-zero 32-byte identifier.  The slot the
function reads from the clock sysvar is passed explicitly. -/
def generate_batch_id (authority : List Nat) (timestamp : Int) (slot : Nat) :
    List Nat :=
  let id := xorInto zeros32 0 authority
  let id := xorInto id 8 (i64Bytes timestamp)
  xorInto id 16 (leBytes 8 slot)

/-- `generate_batch_hash`: XOR the batch id at offset 0 and the
little-endian timestamp bytes at offset 8 into an all-zero 32-byte
string. -/
def generate_batch_hash (batch_id : List Nat) (timestamp : Int) : List Nat :=
  let hash := xorInto zeros32 0 batch_id
  xorInto hash 8 (i64Bytes timestamp)

/-- `calculate_batch_savings`: `total_value * 10 / 1000` (checked
multiplication in `u64`, then integer division). -/
def calculate_batch_savings (batch_account : Batch) : Option Nat :=
  (chk u64Mod (batch_account.total_value * 10)).map (· / 1000)

/-- `create_batch`: a fresh empty `Pending` batch whose id and hash are
derived from the authority and the current clock. -/
def create_batch (authority : List Nat) (now : Int) (slot : Nat) : Batch :=
  let batch_id := generate_batch_id authority now slot
  { id := batch_id
    transactions := []
    transaction_count := 0
    total_value := 0
    status := .Pending
    created_at := now
    executed_at := none
    completed_at := none
    execution_time_ms := none
    batch_hash := generate_batch_hash batch_id now }

/-- `add_to_batch`: requires a matching id, `Pending` status and spare
capacity, then appends the transaction id, increments the count and
adds the transaction's input amount to `total_value`. -/
def add_to_batch (batch_account : Batch) (transaction_account : Transaction)
    (batch_id transaction_id : List Nat) : Except ErrorCode Batch :=
  if batch_account.id ≠ batch_id then .error .InvalidBatchId
  else if batch_account.status ≠ .Pending then .error .BatchNotPending
  else if ¬ (batch_account.transaction_count < MAX_BATCH_SIZE) then
    .error .BatchFull
  else
    match chk u64Mod (batch_account.total_value + transaction_account.input_amount) with
    | none => .error .arithmeticOverflow
    | some v =>
        .ok { batch_account with
                transactions := batch_account.transactions ++ [transaction_id]
                transaction_count := batch_account.transaction_count + 1
                total_value := v }

/-- `execute_batch`: requires a matching id, `Pending` status and a
non-empty batch; marks the batch `Processing` then `Completed`, treats
every member as succeeding, computes the savings with
`calculate_batch_savings`, and reports an execution time derived from
the difference of two clock reads inside the same invocation (the
two reads return the same timestamp, cast `as u32` then multiplied by
1000). -/
def execute_batch (batch_account : Batch) (batch_id : List Nat) (now : Int) :
    Except ErrorCode (Batch × BatchExecutionResult) :=
  if batch_account.id ≠ batch_id then .error .InvalidBatchId
  else if batch_account.status ≠ .Pending then .error .BatchNotPending
  else if ¬ (batch_account.transaction_count > 0) then .error .EmptyBatch
  else
    let batch_account :=
      { batch_account with status := .Processing, executed_at := some now }
    let execution_start := now
    let successful_txs := batch_account.transaction_count
    let failed_txs := 0
    match calculate_batch_savings batch_account with
    | none => .error .arithmeticOverflow
    | some total_savings =>
        match chk u32Mod (((now - execution_start).emod (2 ^ 32)).toNat * 1000) with
        | none => .error .arithmeticOverflow
        | some execution_time_ms =>
            let batch_account :=
              { batch_account with
                  status := .Completed
                  completed_at := some now
                  execution_time_ms := some execution_time_ms }
            .ok (batch_account,
                 { batch_id := batch_id
                   successful_txs := successful_txs
                   failed_txs := failed_txs
                   total_savings := total_savings
                   execution_time_ms := execution_time_ms })

/-- `force_execute_batch`: requires a matching id, `Pending` status and
`now - created_at ≥ MIN_BATCH_AGE_SECONDS`; performs no emptiness
check.  Marks the batch `Processing` then `Completed` with a fixed
execution time of 100 ms and a fixed reported savings of 1000000, and
recomputes the batch hash from the id and execution time. -/
def force_execute_batch (batch_account : Batch) (batch_id : List Nat)
    (now : Int) : Except ErrorCode (Batch × BatchExecutionResult) :=
  if batch_account.id ≠ batch_id then .error .InvalidBatchId
  else if batch_account.status ≠ .Pending then .error .BatchNotPending
  else
    let batch_age := now - batch_account.created_at
    if ¬ (batch_age ≥ MIN_BATCH_AGE_SECONDS) then .error .BatchTooYoung
    else if batch_account.status ≠ .Pending then .error .BatchNotPending
    else
      let batch_account :=
        { batch_account with status := .Processing, executed_at := some now }
      let execution_time_ms := 100
      let successful_txs := batch_account.transaction_count
      let failed_txs := 0
      let total_savings := 1000000
      let batch_account :=
        { batch_account with
            status := .Completed
            completed_at := some now
            execution_time_ms := some execution_time_ms }
      let executed_at := batch_account.executed_at.getD 0
      let batch_account :=
        { batch_account with
            batch_hash := generate_batch_hash batch_account.id executed_at }
      .ok (batch_account,
           { batch_id := batch_account.id
             successful_txs := successful_txs
             failed_txs := failed_txs
             total_savings := total_savings
             execution_time_ms := execution_time_ms })

/-- `cancel_batch`: requires a matching id and `Pending` status, then
moves the batch to `Failed`. -/
def cancel_batch (batch_account : Batch) (batch_id : List Nat) :
    Except ErrorCode Batch :=
  if batch_account.id ≠ batch_id then .error .InvalidBatchId
  else if batch_account.status ≠ .Pending then .error .BatchNotPending
  else .ok { batch_account with status := .Failed }

end batch_coordinator

namespace route_executor

/-- Error codes of the route executor, plus `arithmeticOverflow`
modelling the abort of a checked arithmetic operation (see `Zephyra.chk`). -/
inductive ErrorCode where
  | SlippageExceeded
  | NoRoutesProvided
  | TooManyRoutes
  | InvalidRouteData
  | ExecutionFailed
  | arithmeticOverflow
deriving Repr, DecidableEq

/-- The embedded execution receipt proof. -/
structure ExecutionProof where
  pre_balance : Nat
  post_balance : Nat
  signature : List Nat
  timestamp : Int
deriving Repr, DecidableEq

/-- The persisted route-execution record. -/
structure RouteExecution where
  transaction_id : List Nat
  dex : DEX
  input_amount : Nat
  output_amount : Nat
  price_impact_bps : Nat
  mev_risk_score : Nat
  executed_at : Int
  proof : ExecutionProof
deriving Repr, DecidableEq

/-- `calculate_route_score`:
`estimated_output * (100 - mev_risk_score as u64) / 100`, in checked
`u64` arithmetic — `none` when the subtraction underflows
(`mev_risk_score > 100`) or the multiplication overflows. -/
def calculate_route_score (route : RouteOption) : Option Nat :=
  if route.mev_risk_score ≤ 100 then
    (chk u64Mod (route.estimated_output * (100 - route.mev_risk_score))).map
      (· / 100)
  else none

/-- `simulate_jupiter_swap`: `input_amount * 99 / 100`, degraded by a
slippage factor `100 - route_data.len() % 5`, in checked `u64`
arithmetic. -/
def simulate_jupiter_swap (input_amount : Nat) (route_data : List Nat) :
    Option Nat :=
  (chk u64Mod (input_amount * 99)).bind fun p =>
    let base_output := p / 100
    let slippage_factor := 100 - route_data.length % 5
    (chk u64Mod (base_output * slippage_factor)).map (· / 100)

/-- `calculate_price_impact`: 0 when `input_amount = 0`; otherwise
`(input - output) * 10000 / input` in `i128` (division truncating
toward zero), cast `as u16` (reduction modulo `2^16`), then capped with
`.min(10000)`. -/
def calculate_price_impact (input_amount output_amount : Nat) : Nat :=
  if input_amount = 0 then 0
  else
    let impact :=
      (((((input_amount : Int) - (output_amount : Int)) * 10000).tdiv
          (input_amount : Int)).emod (2 ^ 16)).toNat
    min impact 10000

/-- `calculate_mev_risk`: the route-data length cast `as u8`, doubled
in checked `u8` arithmetic, capped with `.min(100)`. -/
def calculate_mev_risk (route_data : List Nat) : Option Nat :=
  let complexity := route_data.length % u8Mod
  (chk u8Mod (complexity * 2)).map (fun v => min v 100)

/-- `generate_execution_signature`: 64 bytes; first half
`transaction_id[i] ^ amount_bytes[i % 8]`, second half
`transaction_id[31 - i] ^ amount_bytes[7 - i % 8]`. -/
def generate_execution_signature (transaction_id : List Nat)
    (output_amount : Nat) : List Nat :=
  let amount_bytes := leBytes 8 output_amount
  ((List.range 32).map fun i =>
      Nat.xor (transaction_id.getD i 0) (amount_bytes.getD (i % 8) 0)) ++
    ((List.range 32).map fun i =>
      Nat.xor (transaction_id.getD (31 - i) 0) (amount_bytes.getD (7 - i % 8) 0))

/-- `execute_jupiter_swap`: initialises the route-execution record
(four field writes), simulates the venue, validates the slippage bound
`simulated_output ≥ min_output`, and only then writes the remaining
fields and the proof.  The first component counts the record-field
writes performed before the function returns, so a slippage failure
returns with 4 writes already performed in memory; a failed invocation
persists none of them (the runtime discards the writes of an erroring
instruction). -/
def execute_jupiter_swap (transaction_account : Transaction)
    (transaction_id route_data : List Nat) (min_output : Nat) (now : Int) :
    Nat × Except ErrorCode RouteExecution :=
  -- Four initial writes: transaction_id, dex, input_amount, executed_at.
  match simulate_jupiter_swap transaction_account.input_amount route_data with
  | none => (4, .error .arithmeticOverflow)
  | some simulated_output =>
      if ¬ (simulated_output ≥ min_output) then (4, .error .SlippageExceeded)
      else
        match calculate_mev_risk route_data with
        | none => (6, .error .arithmeticOverflow)
        | some risk =>
            (8, .ok
              { transaction_id := transaction_id
                dex := .Jupiter
                input_amount := transaction_account.input_amount
                executed_at := now
                output_amount := simulated_output
                price_impact_bps :=
                  calculate_price_impact transaction_account.input_amount
                    simulated_output
                mev_risk_score := risk
                proof :=
                  { pre_balance := transaction_account.input_amount
                    post_balance := simulated_output
                    signature :=
                      generate_execution_signature transaction_id simulated_output
                    timestamp := now } })

/-- The selection loop of `select_best_route`: scans the remaining
routes, replacing the current best exactly when a strictly greater
score is found, and propagating an aborting score computation. -/
def selectLoop : RouteOption → Nat → List RouteOption →
    Except ErrorCode RouteOption
  | best, _, [] => .ok best
  | best, best_score, route :: rest =>
      match calculate_route_score route with
      | none => .error .arithmeticOverflow
      | some score =>
          if best_score < score then selectLoop route score rest
          else selectLoop best best_score rest

/-- `select_best_route`: rejects an empty list and a list of more than
10 routes, then scans for the best score, keeping the first-seen route
on ties.  The selection result is built from the chosen route (the
source wraps it in a `RouteSelection` together with a presentation-only
reasoning string); the model returns the chosen route itself. -/
def select_best_route (routes : List RouteOption) :
    Except ErrorCode RouteOption :=
  match routes with
  | [] => .error .NoRoutesProvided
  | r0 :: rest =>
      if ¬ ((r0 :: rest).length ≤ 10) then .error .TooManyRoutes
      else
        match calculate_route_score r0 with
        | none => .error .arithmeticOverflow
        | some s0 => selectLoop r0 s0 rest

end route_executor

namespace proof_verifier

/-- Error codes of the proof verifier, plus `arithmeticOverflow`
modelling the abort of a checked arithmetic operation (see `Zephyra.chk`). -/
inductive ErrorCode where
  | InvalidProofHash
  | InvalidProbability
  | ProofNotFound
  | InvalidTiming
  | arithmeticOverflow
deriving Repr, DecidableEq

/-- The categories of recorded suspicious activity. -/
inductive MEVAttackType where
  | SandwichAttack
  | FrontRunning
  | BackRunning
  | Arbitrage
deriving Repr, DecidableEq

/-- One recorded detection event. -/
structure MEVDetection where
  attack_type : MEVAttackType
  probability : Nat
  detected_at : Int
deriving Repr, DecidableEq

/-- The proof-of-route record.  `selection_reasoning` is kept as its
UTF-8 byte string (the hash reads at most its first 8 bytes). -/
structure ProofOfRoute where
  proof_hash : List Nat
  transaction_id : List Nat
  routes_considered : List RouteOption
  selected_route : DEX
  selection_reasoning : List Nat
  mev_detection_log : List MEVDetection
  simulation_time : Nat
  route_selection_time : Nat
  execution_time : Nat
  total_time : Nat
  blockchain_signature : Option (List Nat)
  created_at : Int
deriving Repr, DecidableEq

/-- The single-byte encoding of a venue used by the hash
(`DEX::to_bytes`). -/
def DEX.to_bytes : DEX → Nat
  | .Jupiter => 0
  | .Raydium => 1
  | .Orca => 2

/-- `generate_proof_hash`: XOR of the transaction id from byte 0
(unwrapped indices, bounds-checked); per considered route, its venue
byte into byte 0, its little-endian estimated output at offset 8
wrapping modulo 32, and its risk score into byte 16; the selected
venue byte into byte 17; at most the first 8 reasoning bytes from byte
18 (unwrapped, bounds-checked — indices 18..25, in range); and the 8
little-endian timestamp bytes from byte 26 WITHOUT any index
reduction: indices run 26..33 and overrun the 32-byte array at the
seventh byte, so the function panics — aborts, modelled `none` — on
every call. -/
def generate_proof_hash (transaction_id : List Nat)
    (routes_considered : List RouteOption) (selected_route : DEX)
    (reasoning : List Nat) (timestamp : Int) : Option (List Nat) :=
  (xorIntoB zeros32 0 transaction_id).bind fun hash =>
    let hash := routes_considered.foldl
      (fun h route =>
        let h := xorAt h 0 (DEX.to_bytes route.dex)
        let h := xorInto h 8 (leBytes 8 route.estimated_output)
        xorAt h 16 route.mev_risk_score)
      hash
    let hash := xorAt hash 17 (DEX.to_bytes selected_route)
    (xorIntoB hash 18 (reasoning.take 8)).bind fun hash =>
      xorIntoB hash 26 (i64Bytes timestamp)

/-- `generate_proof`: derives the proof hash, then initialises the
proof record binding the transaction id, the considered routes, the
selected venue, the reasoning and the creation time.  It inherits the
unconditional abort of `generate_proof_hash` (the hash derivation
overruns its array on every input), so the program can never actually
create a proof record. -/
def generate_proof (transaction_id : List Nat)
    (routes_considered : List RouteOption) (selected_route : DEX)
    (reasoning : List Nat) (now : Int) : Option ProofOfRoute :=
  (generate_proof_hash transaction_id routes_considered selected_route
      reasoning now).map fun proof_hash =>
    { proof_hash := proof_hash
      transaction_id := transaction_id
      routes_considered := routes_considered
      selected_route := selected_route
      selection_reasoning := reasoning
      mev_detection_log := []
      simulation_time := 50
      route_selection_time := 30
      execution_time := 20
      total_time := 100
      blockchain_signature := none
      created_at := now }

/-- `verify_proof`: pure query — true iff the stored hash and
transaction id both match the supplied values. -/
def verify_proof (proof_account : ProofOfRoute) (proof_hash : List Nat)
    (transaction_id : List Nat) : Bool :=
  proof_account.proof_hash = proof_hash ∧
    proof_account.transaction_id = transaction_id

/-- `add_mev_detection`: requires the hash to match and
`probability ≤ 100`, then appends one detection event to the log. -/
def add_mev_detection (proof_account : ProofOfRoute) (proof_hash : List Nat)
    (attack_type : MEVAttackType) (probability : Nat) (now : Int) :
    Except ErrorCode ProofOfRoute :=
  if proof_account.proof_hash ≠ proof_hash then .error .InvalidProofHash
  else if ¬ (probability ≤ 100) then .error .InvalidProbability
  else
    .ok { proof_account with
            mev_detection_log :=
              proof_account.mev_detection_log ++
                [{ attack_type := attack_type
                   probability := probability
                   detected_at := now }] }

/-- `update_execution_timing`: requires the hash to match, then
overwrites the three phase timings and recomputes `total_time` as their
checked `u32` sum. -/
def update_execution_timing (proof_account : ProofOfRoute)
    (proof_hash : List Nat)
    (simulation_time route_selection_time execution_time : Nat) :
    Except ErrorCode ProofOfRoute :=
  if proof_account.proof_hash ≠ proof_hash then .error .InvalidProofHash
  else
    match (chk u32Mod (simulation_time + route_selection_time)).bind
        (fun a => chk u32Mod (a + execution_time)) with
    | none => .error .arithmeticOverflow
    | some total =>
        .ok { proof_account with
                simulation_time := simulation_time
                route_selection_time := route_selection_time
                execution_time := execution_time
                total_time := total }

/-- `set_blockchain_signature`: requires the hash to match, then stores
the supplied signature. -/
def set_blockchain_signature (proof_account : ProofOfRoute)
    (proof_hash : List Nat) (signature : List Nat) :
    Except ErrorCode ProofOfRoute :=
  if proof_account.proof_hash ≠ proof_hash then .error .InvalidProofHash
  else .ok { proof_account with blockchain_signature := some signature }

end proof_verifier

namespace magicblock_integration

/-- Error codes of the rollup extension, plus `arithmeticOverflow`
modelling the abort of a checked arithmetic operation (see `Zephyra.chk`). -/
inductive ErrorCode where
  | InvalidSessionId
  | SessionNotActive
  | SessionExpired
  | ExecutionFailed
  | InvalidInstructionData
  | arithmeticOverflow
deriving Repr, DecidableEq

/-- Rollup session states. -/
inductive RollupStatus where
  | Active
  | Committed
  | RolledBack
  | Expired
deriving Repr, DecidableEq

/-- The rollup session record. -/
structure RollupSession where
  id : List Nat
  transaction_id : List Nat
  status : RollupStatus
  created_at : Int
  expires_at : Int
  instructions_executed : Nat
  state_hash : List Nat
  committed_at : Option Int
  rolled_back_at : Option Int
deriving Repr, DecidableEq

/-- Result of one in-rollup instruction execution. -/
structure RollupResult where
  success : Bool
  output_data : List Nat
  execution_time_ms : Nat
  gas_used : Nat
deriving Repr, DecidableEq

/-- The signed commit artifact. -/
structure CommitProof where
  hash : List Nat
  state_hash : List Nat
  instructions_executed : Nat
  timestamp : Int
  signature : List Nat
deriving Repr, DecidableEq

/-- `ROLLUP_SESSION_TIMEOUT` (seconds). -/
def ROLLUP_SESSION_TIMEOUT : Int := 300

/-- `generate_session_id`: XOR the transaction id at offset 0, the
little-endian timestamp bytes at offset 8 and the little-endian slot
bytes at offset 16 into an all-zero 32-byte identifier. -/
def generate_session_id (transaction_id : List Nat) (timestamp : Int)
    (slot : Nat) : List Nat :=
  let id := xorInto zeros32 0 transaction_id
  let id := xorInto id 8 (i64Bytes timestamp)
  xorInto id 16 (leBytes 8 slot)

/-- `init_rollup_session`: a fresh `Active` session with a fixed
timeout and a zero state hash. -/
def init_rollup_session (transaction_id : List Nat) (now : Int) (slot : Nat) :
    RollupSession :=
  { id := generate_session_id transaction_id now slot
    transaction_id := transaction_id
    status := .Active
    created_at := now
    expires_at := now + ROLLUP_SESSION_TIMEOUT
    instructions_executed := 0
    state_hash := zeros32
    committed_at := none
    rolled_back_at := none }

/-- `update_state_hash`: XOR the instruction bytes into the running
hash (`hash[i % 32] ^= byte`), then XOR the success flag into byte 31. -/
def update_state_hash (current_hash : List Nat) (instruction_data : List Nat)
    (success : Bool) : List Nat :=
  let hash := xorInto current_hash 0 instruction_data
  xorAt hash 31 (if success then 1 else 0)

/-- `simulate_rollup_execution`: succeeds for non-empty instruction
data; execution time `10 + len % 50`, gas `len * 1000` in checked
`u64`. -/
def simulate_rollup_execution (instruction_data : List Nat) :
    Except ErrorCode RollupResult :=
  let success := instruction_data.length > 0
  let execution_time_ms := 10 + instruction_data.length % u32Mod % 50
  match chk u64Mod (instruction_data.length * 1000) with
  | none => .error .arithmeticOverflow
  | some gas_used =>
      .ok { success := success
            output_data := instruction_data
            execution_time_ms := execution_time_ms
            gas_used := gas_used }

/-- `execute_in_rollup`: requires a matching session id, `Active`
status and `now < expires_at`; then simulates the instruction,
increments the instruction counter (checked `u32`) and folds the
instruction bytes into the running state hash. -/
def execute_in_rollup (session_account : RollupSession)
    (session_id : List Nat) (instruction_data : List Nat) (now : Int) :
    Except ErrorCode (RollupSession × RollupResult) :=
  if session_account.id ≠ session_id then .error .InvalidSessionId
  else if session_account.status ≠ .Active then .error .SessionNotActive
  else if ¬ (now < session_account.expires_at) then .error .SessionExpired
  else
    match simulate_rollup_execution instruction_data with
    | .error e => .error e
    | .ok execution_result =>
        match chk u32Mod (session_account.instructions_executed + 1) with
        | none => .error .arithmeticOverflow
        | some n =>
            .ok ({ session_account with
                     instructions_executed := n
                     state_hash :=
                       update_state_hash session_account.state_hash
                         instruction_data execution_result.success },
                 execution_result)

/-- `generate_commit_signature`: 64 bytes mixing the commit hash with
the little-endian slot bytes (first half forward, second half
reversed). -/
def generate_commit_signature (hash : List Nat) (slot : Nat) : List Nat :=
  let slot_bytes := leBytes 8 slot
  ((List.range 32).map fun i =>
      Nat.xor (hash.getD i 0) (slot_bytes.getD (i % 8) 0)) ++
    ((List.range 32).map fun i =>
      Nat.xor (hash.getD (31 - i) 0) (slot_bytes.getD (7 - i % 8) 0))

/-- `generate_commit_proof`: hash mixing the state hash at offset 0,
the little-endian instruction count at offset 8 and the little-endian
timestamp bytes at offset 16, with a signature over that hash. -/
def generate_commit_proof (state_hash : List Nat)
    (instructions_executed : Nat) (timestamp : Int) (slot : Nat) :
    CommitProof :=
  let hash := xorInto zeros32 0 state_hash
  let hash := xorInto hash 8 (leBytes 4 instructions_executed)
  let hash := xorInto hash 16 (i64Bytes timestamp)
  { hash := hash
    state_hash := state_hash
    instructions_executed := instructions_executed
    timestamp := timestamp
    signature := generate_commit_signature hash slot }

/-- `commit_rollup`: requires a matching session id and `Active`
status (no expiry check), then marks the session `Committed` and
returns the commit proof. -/
def commit_rollup (session_account : RollupSession) (session_id : List Nat)
    (now : Int) (slot : Nat) :
    Except ErrorCode (RollupSession × CommitProof) :=
  if session_account.id ≠ session_id then .error .InvalidSessionId
  else if session_account.status ≠ .Active then .error .SessionNotActive
  else
    let commit_proof :=
      generate_commit_proof session_account.state_hash
        session_account.instructions_executed now slot
    .ok ({ session_account with
             status := .Committed
             committed_at := some now },
         commit_proof)

/-- `rollback_rollup`: requires a matching session id and `Active`
status (no expiry check), then marks the session `RolledBack`.  The
caller-supplied reason is only emitted in the event. -/
def rollback_rollup (session_account : RollupSession) (session_id : List Nat)
    (_reason : List Nat) (now : Int) : Except ErrorCode RollupSession :=
  if session_account.id ≠ session_id then .error .InvalidSessionId
  else if session_account.status ≠ .Active then .error .SessionNotActive
  else
    .ok { session_account with
            status := .RolledBack
            rolled_back_at := some now }

end magicblock_integration

/-- The substrate's commit rule for a single-record invocation: the
result state of a successful call, the unchanged pre-state of a failed
one (the runtime discards every write of an instruction that returns
an error). -/
def commitExcept {ε α : Type} (pre : α) : Except ε α → α
  | .ok post => post
  | .error _ => pre

/-- Follows the spec's words for the price-impact contract, for
comparison with `route_executor.calculate_price_impact`:
`clamp(round((input - output) * 10000 / input), 0, 10000)` basis
points, with 0 impact when `input == 0` (the quotient taken as the
integer quotient and the clamp confining it to `[0, 10000]`). -/
def price_impact_spec (input_amount output_amount : Nat) : Nat :=
  if input_amount = 0 then 0
  else
    min (max ((((input_amount : Int) - (output_amount : Int)) * 10000).tdiv
          (input_amount : Int)) 0).toNat 10000

/-- A sample submitted transaction record used to instantiate the
theorems below on concrete inputs. -/
def sampleTx : Transaction :=
  { id := zeros32
    owner := zeros32
    input_token := zeros32
    output_token := zeros32
    input_amount := 1000
    output_amount := 0
    risk_score := 0
    selected_route := 0
    status := .Pending
    proof_hash := zeros32
    batch_id := none
    created_at := 0
    completed_at := none }

/-- A sample protection account used to instantiate the theorems below
on concrete inputs. -/
def samplePa : zephyra_protection_manager.ProtectionAccount :=
  zephyra_protection_manager.initialize_protection zeros32 255

/-- A sample one-member pending batch used to instantiate the theorems
below on concrete inputs. -/
def sampleBatch : batch_coordinator.Batch :=
  { id := zeros32
    transactions := [zeros32]
    transaction_count := 1
    total_value := 5000
    status := .Pending
    created_at := 0
    executed_at := none
    completed_at := none
    execution_time_ms := none
    batch_hash := zeros32 }

/-- A sample proof record, written as a literal record state (the
program's own `generate_proof` can never create one, since its hash
derivation aborts on every input), used to instantiate the theorems
below on concrete inputs. -/
def sampleProof : proof_verifier.ProofOfRoute :=
  { proof_hash := zeros32
    transaction_id := zeros32
    routes_considered := []
    selected_route := .Jupiter
    selection_reasoning := []
    mev_detection_log := []
    simulation_time := 50
    route_selection_time := 30
    execution_time := 20
    total_time := 100
    blockchain_signature := none
    created_at := 0 }

section Claims

open zephyra_protection_manager batch_coordinator route_executor
open proof_verifier magicblock_integration

/-- The result of submitting a sample transaction (first step of the
C1 call sequence). -/
def c1step1 :
    Except zephyra_protection_manager.ErrorCode
      (ProtectionAccount × Transaction × List Nat) :=
  submit_transaction samplePa zeros32 zeros32 100 0 0

/-- The protection account after the C1 submission. -/
def c1pa1 : ProtectionAccount :=
  match c1step1 with
  | .ok (pa, _, _) => pa
  | .error _ => samplePa

/-- The transaction record created by the C1 submission. -/
def c1tx1 : Transaction :=
  match c1step1 with
  | .ok (_, tx, _) => tx
  | .error _ => sampleTx

/-- The transaction id returned by the C1 submission. -/
def c1id : List Nat :=
  match c1step1 with
  | .ok (_, _, i) => i
  | .error _ => zeros32

/-- The result of completing the C1 transaction (second step). -/
def c1step2 :
    Except zephyra_protection_manager.ErrorCode
      (Transaction × ProtectionAccount) :=
  complete_transaction c1tx1 c1pa1 c1id 150 zeros32 5

/-- The transaction record after the C1 completion. -/
def c1tx2 : Transaction :=
  match c1step2 with
  | .ok (tx, _) => tx
  | .error _ => sampleTx

/-- The protection account after the C1 completion. -/
def c1pa2 : ProtectionAccount :=
  match c1step2 with
  | .ok (_, pa) => pa
  | .error _ => samplePa

/-- The result of a risk-analysis update on the already completed C1
transaction (third step). -/
def c1step3 :
    Except zephyra_protection_manager.ErrorCode
      (Transaction × ProtectionAccount) :=
  update_risk_analysis c1tx2 c1pa2 c1id 50 false

/-- The transaction record after the C1 risk-analysis update. -/
def c1tx3 : Transaction :=
  match c1step3 with
  | .ok (tx, _) => tx
  | .error _ => sampleTx

/-- The mathematical route score
`estimated_output * (100 - mev_risk_score) / 100`, the value
`calculate_route_score` returns whenever its checked arithmetic does
not abort. -/
def scoreM (r : RouteOption) : Nat :=
  r.estimated_output * (100 - r.mev_risk_score) / 100

/-- The domain on which the route-score computation does not abort:
the risk score is within its documented `[0, 100]` range and the `u64`
product does not overflow. -/
def scoreDefined (r : RouteOption) : Prop :=
  r.mev_risk_score ≤ 100 ∧
    r.estimated_output * (100 - r.mev_risk_score) < u64Mod

instance (r : RouteOption) : Decidable (scoreDefined r) := by
  unfold scoreDefined
  infer_instance

/-- The first-seen maximum-score route of `b :: l`: the reference
value of the selection loop, which replaces its current best only on a
strictly greater score. -/
def firstMax : RouteOption → List RouteOption → RouteOption
  | b, [] => b
  | b, r :: rs => if scoreM b < scoreM r then firstMax r rs else firstMax b rs

/-- Claim C1.  The transaction status CAN regress without a transition
to `Failed`: the call sequence submit → complete → risk-analysis
update consists of three accepted calls, yet it ends with the status
moved backwards from `Completed` (index 4) to `Analyzing` (index 2),
because `update_risk_analysis` validates only the id and the risk
bound and sets the status to `Analyzing` unconditionally. -/
theorem c1_status_can_regress :
    c1step1.isOk = true ∧ c1step2.isOk = true ∧ c1step3.isOk = true ∧
      c1tx2.status = .Completed ∧ c1tx3.status = .Analyzing ∧
      statusIndex c1tx3.status < statusIndex c1tx2.status ∧
      c1tx3.status ≠ .Failed := by
  decide

/-- Claim C2.  The identifier derivations are not domain-separated:
the transaction-id and batch-id derivations are undomained XOR folds
that produce the same (all-zero) 32-byte identifier on the all-zero
input tuple; and the proof-hash derivation never yields an identifier
at all — its timestamp loop overruns the 32-byte array and aborts,
shown here both at the all-zero tuple and at a non-trivial one. -/
theorem c2_identifier_namespaces_collide :
    zephyra_protection_manager.generate_transaction_id zeros32 zeros32 zeros32
        0 0 =
      batch_coordinator.generate_batch_id zeros32 0 0 ∧
    proof_verifier.generate_proof_hash zeros32 [] .Jupiter [] 0 = none ∧
    proof_verifier.generate_proof_hash zeros32 [⟨.Orca, 5000, 10, 20, 9⟩]
        .Orca [65, 66, 67] 123456789 = none := by
  decide

/-- Claim C5.  An empty pending batch of sufficient age is rejected by
`execute_batch` (with `EmptyBatch`) but accepted by
`force_execute_batch`, which transitions it to `Completed` and reports
success — `force_execute_batch` has no emptiness check. -/
theorem c5_force_execute_accepts_empty_batch :
    execute_batch (create_batch zeros32 0 0) (create_batch zeros32 0 0).id 30 =
        .error .EmptyBatch ∧
      (create_batch zeros32 0 0).transaction_count = 0 ∧
      ∃ b res,
        force_execute_batch (create_batch zeros32 0 0)
            (create_batch zeros32 0 0).id 30 = .ok (b, res) ∧
          b.status = .Completed ∧ res.total_savings = 1000000 := by
  exact ⟨by decide, by decide, _, _, rfl, by decide, by decide⟩

/-- Claim C3 counterexample.  `execute_jupiter_swap` does not validate
all of its preconditions before its first record mutation: on a
slippage failure (here the simulated output 990 is below the requested
minimum 1000) the entry point returns an error after having already
performed 4 in-memory field writes to the route-execution record. -/
theorem c3_jupiter_swap_writes_before_validation :
    (execute_jupiter_swap sampleTx zeros32 [] 1000 0).2 =
        .error .SlippageExceeded ∧
      (execute_jupiter_swap sampleTx zeros32 [] 1000 0).1 = 4 ∧
      (execute_jupiter_swap sampleTx zeros32 [] 1000 0).1 ≠ 0 := by
  decide

/-- Claim C6 counterexample.  For the valid singleton candidate list
`[{Jupiter, estimated_output := 2^63, risk := 0}]` (non-empty, within
the 10-route bound) the selection does not return the maximizing — or
any — candidate: the `u64` score computation `2^63 * 100` overflows and
the call aborts. -/
theorem c6_selection_aborts_on_large_output :
    select_best_route [⟨.Jupiter, 2 ^ 63, 0, 0, 0⟩] =
        .error .arithmeticOverflow ∧
      ([(⟨.Jupiter, 2 ^ 63, 0, 0, 0⟩ : RouteOption)] ≠ []) ∧
      [(⟨.Jupiter, 2 ^ 63, 0, 0, 0⟩ : RouteOption)].length ≤ 10 := by
  decide

/-- Claim C7 counterexample.  For `input = 100`, `output = 200` the
spec formula `clamp((input - output) * 10000 / input, 0, 10000)` gives
0, but the code casts the negative quotient `-10000` `as u16` (giving
55536) before applying `.min(10000)`, and returns 10000. -/
theorem c7_negative_impact_not_clamped_to_zero :
    calculate_price_impact 100 200 = 10000 ∧
      price_impact_spec 100 200 = 0 := by
  decide

/-- Claim C8 counterexample.  `commit_rollup` checks only the `Active`
status, not the expiry: a still-`Active` session whose `expires_at`
(300) has already been reached at `now = 300` is committed — a mutating
operation accepted at a time at-or-past `expires_at`. -/
theorem c8_commit_accepted_past_expiry :
    ∃ s proof,
      commit_rollup (init_rollup_session zeros32 0 0)
          (init_rollup_session zeros32 0 0).id 300 7 = .ok (s, proof) ∧
        (init_rollup_session zeros32 0 0).expires_at ≤ 300 ∧
        (init_rollup_session zeros32 0 0).status = .Active ∧
        s.status = .Committed := by
  exact ⟨_, _, rfl, by decide, by decide, by decide⟩

/-- Inversion for the checked-arithmetic helper: a successful checked
reduction returns the mathematical result, which is within the width. -/
theorem chk_eq_some {m n k : Nat} (h : chk m n = some k) : k = n ∧ n < m := by
  unfold chk at h
  split at h
  · cases h; exact ⟨rfl, by assumption⟩
  · exact (Option.noConfusion h)

/-- Claim C4.  For every accepted completion, the owner's
`total_savings` afterwards equals its prior value plus
`max(0, output_amount - input_amount)` (written as the truncation to
`Nat` of the integer difference), and it never decreases. -/
theorem c4_total_savings_accounting :
    ∀ (tx : Transaction) (pa : ProtectionAccount) (tid : List Nat)
      (out : Nat) (ph : List Nat) (now : Int) (tx' : Transaction)
      (pa' : ProtectionAccount),
      complete_transaction tx pa tid out ph now = .ok (tx', pa') →
      pa'.total_savings =
          pa.total_savings + ((out : Int) - (tx.input_amount : Int)).toNat ∧
        pa.total_savings ≤ pa'.total_savings := by
  intro tx pa tid out ph now tx' pa' h
  unfold complete_transaction at h
  split at h
  · exact (Except.noConfusion h)
  · dsimp only at h
    split at h
    · exact (Except.noConfusion h)
    · rename_i s heq
      obtain ⟨rfl, -⟩ := chk_eq_some heq
      cases h
      have hsav :
          (if out > tx.input_amount then out - tx.input_amount else 0) =
            ((out : Int) - (tx.input_amount : Int)).toNat := by
        split <;> omega
      exact ⟨by simpa using hsav, by simp⟩

/-- Claim C4 witness: completing the sample transaction (input 1000)
with output 1500 is accepted and adds exactly 500 to the owner's
`total_savings`. -/
theorem c4_total_savings_accounting_witness :
    ∃ (tx' : Transaction) (pa' : ProtectionAccount),
      complete_transaction sampleTx samplePa zeros32 1500 zeros32 7 =
          .ok (tx', pa') ∧
        pa'.total_savings =
          samplePa.total_savings +
            ((1500 : Int) - (sampleTx.input_amount : Int)).toNat ∧
        samplePa.total_savings ≤ pa'.total_savings := by
  refine ⟨_, _, rfl, ?_⟩
  exact c4_total_savings_accounting sampleTx samplePa zeros32 1500 zeros32 7
    _ _ rfl

/-- Claim C9.  Each accepted audit-trail mutation — detection append,
timing overwrite, signature set — leaves the decision-binding fields
(`proof_hash`, `transaction_id`, `routes_considered`, `selected_route`,
`selection_reasoning`, `created_at`) of the proof record unchanged. -/
theorem c9_audit_mutations_preserve_decision_fields :
    (∀ (p : ProofOfRoute) (ph : List Nat) (a : MEVAttackType) (prob : Nat)
       (now : Int) (p' : ProofOfRoute),
       add_mev_detection p ph a prob now = .ok p' →
       p'.proof_hash = p.proof_hash ∧ p'.transaction_id = p.transaction_id ∧
         p'.routes_considered = p.routes_considered ∧
         p'.selected_route = p.selected_route ∧
         p'.selection_reasoning = p.selection_reasoning ∧
         p'.created_at = p.created_at) ∧
    (∀ (p : ProofOfRoute) (ph : List Nat) (st rt et : Nat)
       (p' : ProofOfRoute),
       update_execution_timing p ph st rt et = .ok p' →
       p'.proof_hash = p.proof_hash ∧ p'.transaction_id = p.transaction_id ∧
         p'.routes_considered = p.routes_considered ∧
         p'.selected_route = p.selected_route ∧
         p'.selection_reasoning = p.selection_reasoning ∧
         p'.created_at = p.created_at) ∧
    (∀ (p : ProofOfRoute) (ph sig : List Nat) (p' : ProofOfRoute),
       set_blockchain_signature p ph sig = .ok p' →
       p'.proof_hash = p.proof_hash ∧ p'.transaction_id = p.transaction_id ∧
         p'.routes_considered = p.routes_considered ∧
         p'.selected_route = p.selected_route ∧
         p'.selection_reasoning = p.selection_reasoning ∧
         p'.created_at = p.created_at) := by
  refine ⟨?_, ?_, ?_⟩
  · intro p ph a prob now p' h
    unfold add_mev_detection at h
    split at h
    · exact (Except.noConfusion h)
    · split at h
      · exact (Except.noConfusion h)
      · cases h
        exact ⟨rfl, rfl, rfl, rfl, rfl, rfl⟩
  · intro p ph st rt et p' h
    unfold update_execution_timing at h
    split at h
    · exact (Except.noConfusion h)
    · split at h
      · exact (Except.noConfusion h)
      · cases h
        exact ⟨rfl, rfl, rfl, rfl, rfl, rfl⟩
  · intro p ph sig p' h
    unfold set_blockchain_signature at h
    split at h
    · exact (Except.noConfusion h)
    · cases h
      exact ⟨rfl, rfl, rfl, rfl, rfl, rfl⟩

/-- Claim C9 witness: on the sample proof record, one accepted call of
each of the three audit mutations preserves all six decision-binding
fields. -/
theorem c9_audit_mutations_preserve_decision_fields_witness :
    (∃ p', add_mev_detection sampleProof sampleProof.proof_hash
        .SandwichAttack 60 9 = .ok p' ∧
        p'.proof_hash = sampleProof.proof_hash ∧
        p'.created_at = sampleProof.created_at) ∧
    (∃ p', update_execution_timing sampleProof sampleProof.proof_hash
        11 22 33 = .ok p' ∧
        p'.proof_hash = sampleProof.proof_hash ∧
        p'.created_at = sampleProof.created_at) ∧
    (∃ p', set_blockchain_signature sampleProof sampleProof.proof_hash
        (List.replicate 64 1) = .ok p' ∧
        p'.proof_hash = sampleProof.proof_hash ∧
        p'.created_at = sampleProof.created_at) := by
  refine ⟨⟨_, rfl, ?_⟩, ⟨_, rfl, ?_⟩, ⟨_, rfl, ?_⟩⟩
  · have h := c9_audit_mutations_preserve_decision_fields.1 sampleProof
      sampleProof.proof_hash .SandwichAttack 60 9 _ rfl
    exact ⟨h.1, h.2.2.2.2.2⟩
  · have h := c9_audit_mutations_preserve_decision_fields.2.1 sampleProof
      sampleProof.proof_hash 11 22 33 _ rfl
    exact ⟨h.1, h.2.2.2.2.2⟩
  · have h := c9_audit_mutations_preserve_decision_fields.2.2 sampleProof
      sampleProof.proof_hash (List.replicate 64 1) _ rfl
    exact ⟨h.1, h.2.2.2.2.2⟩

/-- Claim C10.  A successful `force_execute_batch` reports the fixed
figures `total_savings = 1000000` and `execution_time_ms = 100`
whatever the batch contains, a successful `execute_batch` reports
`total_savings = total_value * 10 / 1000` and `execution_time_ms = 0`
(the difference of two clock reads within one invocation), and for the
same batch and clock the two paths never report the same result. -/
theorem c10_execution_path_figures :
    (∀ (b : Batch) (bid : List Nat) (now : Int) (b' : Batch)
       (res : BatchExecutionResult),
       force_execute_batch b bid now = .ok (b', res) →
       res.total_savings = 1000000 ∧ res.execution_time_ms = 100) ∧
    (∀ (b : Batch) (bid : List Nat) (now : Int) (b' : Batch)
       (res : BatchExecutionResult),
       execute_batch b bid now = .ok (b', res) →
       res.total_savings = b.total_value * 10 / 1000 ∧
         res.execution_time_ms = 0) ∧
    (∀ (b : Batch) (bid : List Nat) (now : Int) (bF bE : Batch)
       (resF resE : BatchExecutionResult),
       force_execute_batch b bid now = .ok (bF, resF) →
       execute_batch b bid now = .ok (bE, resE) → resF ≠ resE) := by
  have hforce : ∀ (b : Batch) (bid : List Nat) (now : Int) (b' : Batch)
      (res : BatchExecutionResult),
      force_execute_batch b bid now = .ok (b', res) →
      res.total_savings = 1000000 ∧ res.execution_time_ms = 100 := by
    intro b bid now b' res h
    unfold force_execute_batch at h
    split at h
    · exact (Except.noConfusion h)
    · split at h
      · exact (Except.noConfusion h)
      · dsimp only at h
        split at h
        · exact (Except.noConfusion h)
        · cases h
          exact ⟨rfl, rfl⟩
  have hexec : ∀ (b : Batch) (bid : List Nat) (now : Int) (b' : Batch)
      (res : BatchExecutionResult),
      execute_batch b bid now = .ok (b', res) →
      res.total_savings = b.total_value * 10 / 1000 ∧
        res.execution_time_ms = 0 := by
    intro b bid now b' res h
    unfold execute_batch at h
    split at h
    · exact (Except.noConfusion h)
    · split at h
      · exact (Except.noConfusion h)
      · split at h
        · exact (Except.noConfusion h)
        · dsimp only at h
          split at h
          · exact (Except.noConfusion h)
          · rename_i sav hsav
            split at h
            · exact (Except.noConfusion h)
            · rename_i t ht
              obtain ⟨rfl, -⟩ := chk_eq_some ht
              cases h
              unfold calculate_batch_savings at hsav
              rw [Option.map_eq_some'] at hsav
              obtain ⟨v, hv, rfl⟩ := hsav
              obtain ⟨rfl, -⟩ := chk_eq_some hv
              refine ⟨rfl, ?_⟩
              show ((now - now).emod (2 ^ 32)).toNat * 1000 = 0
              rw [sub_self]
              decide
  refine ⟨hforce, hexec, ?_⟩
  intro b bid now bF bE resF resE hF hE hcontra
  have h1 := (hforce b bid now bF resF hF).2
  have h2 := (hexec b bid now bE resE hE).2
  rw [hcontra] at h1
  omega

/-- Claim C10 witness: on the sample one-member batch (total value
5000) at `now = 30`, the forced path reports savings 1000000 and time
100 ms, the normal path reports savings `5000 * 10 / 1000 = 50` and
time 0 ms, and the two results differ. -/
theorem c10_execution_path_figures_witness :
    ∃ (bF bE : Batch) (resF resE : BatchExecutionResult),
      force_execute_batch sampleBatch zeros32 30 = .ok (bF, resF) ∧
        execute_batch sampleBatch zeros32 30 = .ok (bE, resE) ∧
        resF.total_savings = 1000000 ∧ resF.execution_time_ms = 100 ∧
        resE.total_savings = sampleBatch.total_value * 10 / 1000 ∧
        resE.execution_time_ms = 0 ∧ resF ≠ resE := by
  refine ⟨_, _, _, _, rfl, rfl, ?_⟩
  have hF := (c10_execution_path_figures.1 sampleBatch zeros32 30 _ _ rfl)
  have hE := (c10_execution_path_figures.2.1 sampleBatch zeros32 30 _ _ rfl)
  have hne := c10_execution_path_figures.2.2 sampleBatch zeros32 30 _ _ _ _
    rfl rfl
  exact ⟨hF.1, hF.2, hE.1, hE.2, hne⟩

/-- Claim C3 (amended).  `update_settings` validates both preconditions
before its first settings write (a failing call has performed 0 field
writes), and on any failure of either cited entry point nothing is
persisted: the substrate keeps the prior protection account, and the
route-execution record of a failed `execute_jupiter_swap` is never
created, whatever in-memory writes preceded the failure. -/
theorem c3_failure_commits_no_mutation :
    (∀ (pa : ProtectionAccount) (ms mr : Nat)
       (e : zephyra_protection_manager.ErrorCode),
       (update_settings pa ms mr).2 = .error e →
       (update_settings pa ms mr).1 = 0 ∧
         commitExcept pa (update_settings pa ms mr).2 = pa) ∧
    (∀ (tx : Transaction) (tid rd : List Nat) (mo : Nat) (now : Int)
       (e : route_executor.ErrorCode) (pre : Option RouteExecution),
       (execute_jupiter_swap tx tid rd mo now).2 = .error e →
       commitExcept pre
           ((execute_jupiter_swap tx tid rd mo now).2.map some) = pre) := by
  constructor
  · intro pa ms mr e h
    by_cases h1 : ms ≤ 1000
    · by_cases h2 : mr ≤ 100
      · simp [update_settings, h1, h2] at h
      · constructor <;> simp [update_settings, h1, h2, commitExcept]
    · constructor <;> simp [update_settings, h1, commitExcept]
  · intro tx tid rd mo now e pre h
    rw [h]
    rfl

/-- Claim C3 witness: a slippage-failing `execute_jupiter_swap` (cf.
the counterexample input) persists no route-execution record, and an
`update_settings` call with an out-of-bound slippage of 2000 fails
with 0 writes performed and the protection account kept unchanged. -/
theorem c3_failure_commits_no_mutation_witness :
    ((update_settings samplePa 2000 50).1 = 0 ∧
        commitExcept samplePa (update_settings samplePa 2000 50).2 =
          samplePa) ∧
      commitExcept (none : Option RouteExecution)
          ((execute_jupiter_swap sampleTx zeros32 [] 1000 0).2.map some) =
        none := by
  constructor
  · exact c3_failure_commits_no_mutation.1 samplePa 2000 50
      .InvalidSlippage rfl
  · exact c3_failure_commits_no_mutation.2 sampleTx zeros32 [] 1000 0
      .SlippageExceeded none rfl

/-- Claim C8 (amended).  `execute_in_rollup` is rejected whenever the
session is not `Active` or the clock is at or past `expires_at`;
`commit_rollup` and `rollback_rollup` are rejected whenever the session
is not `Active` (in particular on every already-terminal session), but
perform no expiry check of their own; and every rejected call leaves
the persisted session unchanged. -/
theorem c8_active_gating_and_rejection_frame :
    (∀ (s : RollupSession) (sid data : List Nat) (now : Int),
       s.status ≠ .Active ∨ s.expires_at ≤ now →
       ∃ e, execute_in_rollup s sid data now = .error e) ∧
    (∀ (s : RollupSession) (sid : List Nat) (now : Int) (slot : Nat),
       s.status ≠ .Active → ∃ e, commit_rollup s sid now slot = .error e) ∧
    (∀ (s : RollupSession) (sid r : List Nat) (now : Int),
       s.status ≠ .Active → ∃ e, rollback_rollup s sid r now = .error e) ∧
    (∀ (s : RollupSession) (sid data : List Nat) (now : Int)
       (e : magicblock_integration.ErrorCode),
       execute_in_rollup s sid data now = .error e →
       commitExcept s ((execute_in_rollup s sid data now).map Prod.fst) =
         s) ∧
    (∀ (s : RollupSession) (sid : List Nat) (now : Int) (slot : Nat)
       (e : magicblock_integration.ErrorCode),
       commit_rollup s sid now slot = .error e →
       commitExcept s ((commit_rollup s sid now slot).map Prod.fst) = s) ∧
    (∀ (s : RollupSession) (sid r : List Nat) (now : Int)
       (e : magicblock_integration.ErrorCode),
       rollback_rollup s sid r now = .error e →
       commitExcept s (rollback_rollup s sid r now) = s) := by
  refine ⟨?_, ?_, ?_, ?_, ?_, ?_⟩
  · intro s sid data now h
    unfold execute_in_rollup
    split
    · exact ⟨_, rfl⟩
    · split
      · exact ⟨_, rfl⟩
      · split
        · exact ⟨_, rfl⟩
        · rename_i hid hact hexp
          rcases h with h | h
          · exact absurd (not_not.mp hact) h
          · exact absurd (not_not.mp hexp) (by omega)
  · intro s sid now slot h
    unfold commit_rollup
    split
    · exact ⟨_, rfl⟩
    · exact ⟨_, rfl⟩
  · intro s sid r now h
    unfold rollback_rollup
    split
    · exact ⟨_, rfl⟩
    · exact ⟨_, rfl⟩
  · intro s sid data now e h
    rw [h]; rfl
  · intro s sid now slot e h
    rw [h]; rfl
  · intro s sid r now e h
    rw [h]; rfl

/-- Claim C8 witness: the committed sample session (terminal) rejects a
re-commit and a rollback, an expired-but-Active session rejects
instruction execution, and each of these rejections leaves the session
unchanged. -/
theorem c8_active_gating_and_rejection_frame_witness :
    (∃ e, execute_in_rollup (init_rollup_session zeros32 0 0)
        (init_rollup_session zeros32 0 0).id [1] 300 = .error e) ∧
      (∃ e, commit_rollup
          { init_rollup_session zeros32 0 0 with status := .Committed }
          zeros32 301 7 = .error e) ∧
      (∃ e, rollback_rollup
          { init_rollup_session zeros32 0 0 with status := .RolledBack }
          zeros32 [2] 301 = .error e) ∧
      commitExcept (init_rollup_session zeros32 0 0)
          ((execute_in_rollup (init_rollup_session zeros32 0 0)
              (init_rollup_session zeros32 0 0).id [1] 300).map Prod.fst) =
        init_rollup_session zeros32 0 0 := by
  refine ⟨?_, ?_, ?_, ?_⟩
  · exact c8_active_gating_and_rejection_frame.1 _ _ [1] 300
      (Or.inr (by decide))
  · exact c8_active_gating_and_rejection_frame.2.1 _ zeros32 301 7
      (by decide)
  · exact c8_active_gating_and_rejection_frame.2.2.1 _ zeros32 [2] 301
      (by decide)
  · exact c8_active_gating_and_rejection_frame.2.2.2.1 _ _ [1] 300
      .SessionExpired (by decide)

/-- Claim C7 (amended).  The computed price impact is 0 when
`input = 0`; for `output ≤ input` it equals the spec's clamp
`min((input - output) * 10000 / input, 10000)` (the quotient is
non-negative there, so the lower clamp is vacuous); and it always lies
within `[0, 10000]`.  (For `output > input` the negative quotient is
reduced modulo `2^16` by the `as u16` cast before `.min(10000)`, so the
result generally differs from the spec's 0 — see the counterexample.) -/
theorem c7_price_impact_characterisation :
    ∀ input output : Nat,
      (input = 0 → calculate_price_impact input output = 0) ∧
      (input ≠ 0 → output ≤ input →
        calculate_price_impact input output =
          min ((input - output) * 10000 / input) 10000) ∧
      calculate_price_impact input output ≤ 10000 := by
  intro input output
  refine ⟨?_, ?_, ?_⟩
  · intro h
    simp [calculate_price_impact, h]
  · intro h0 hle
    unfold calculate_price_impact
    rw [if_neg h0]
    dsimp only
    have hcast : ((input : Int) - (output : Int)) * 10000 =
        (((input - output) * 10000 : Nat) : Int) := by
      push_cast [hle]
      ring
    rw [hcast]
    have htdiv : ((((input - output) * 10000 : Nat) : Int)).tdiv
        ((input : Nat) : Int) = (((input - output) * 10000 / input : Nat) : Int) := rfl
    rw [htdiv]
    have hq : (input - output) * 10000 / input ≤ 10000 := by
      calc (input - output) * 10000 / input ≤ input * 10000 / input :=
            Nat.div_le_div_right (Nat.mul_le_mul_right _ (Nat.sub_le _ _))
        _ = 10000 := by
            rw [Nat.mul_div_cancel_left _ (Nat.pos_of_ne_zero h0)]
    have hemod : ((((input - output) * 10000 / input : Nat) : Int)).emod
        (2 ^ 16) = (((input - output) * 10000 / input : Nat) : Int) := by
      apply Int.emod_eq_of_lt
      · exact Int.ofNat_nonneg _
      · omega
    rw [hemod]
    generalize (input - output) * 10000 / input = q
    omega
  · unfold calculate_price_impact
    split
    · omega
    · exact Nat.min_le_right _ _

/-- Claim C7 witness: at `input = 100`, `output = 50` the computed
impact is the clamped spec value `min(50 * 10000 / 100, 10000) = 5000`,
within `[0, 10000]`. -/
theorem c7_price_impact_characterisation_witness :
    calculate_price_impact 100 50 = min ((100 - 50) * 10000 / 100) 10000 ∧
      calculate_price_impact 100 50 ≤ 10000 ∧
      calculate_price_impact 0 7 = 0 := by
  refine ⟨?_, ?_, ?_⟩
  · exact (c7_price_impact_characterisation 100 50).2.1 (by decide) (by decide)
  · exact (c7_price_impact_characterisation 100 50).2.2
  · exact (c7_price_impact_characterisation 0 7).1 rfl

/-- On its defined domain the checked route score computes the
mathematical score. -/
theorem calculate_route_score_eq {r : RouteOption} (h : scoreDefined r) :
    calculate_route_score r = some (scoreM r) := by
  obtain ⟨h1, h2⟩ := h
  unfold calculate_route_score scoreM
  rw [if_pos h1]
  unfold chk
  rw [if_pos h2]
  rfl

/-- The selection loop computes the first-seen maximum when every
remaining score is defined. -/
theorem selectLoop_eq :
    ∀ (rest : List RouteOption) (b : RouteOption),
      (∀ r ∈ rest, scoreDefined r) →
      selectLoop b (scoreM b) rest = .ok (firstMax b rest) := by
  intro rest
  induction rest with
  | nil => intro b _; rfl
  | cons r rs ih =>
      intro b h
      have hr : scoreDefined r := h r (List.mem_cons_self _ _)
      have hrs : ∀ x ∈ rs, scoreDefined x := fun x hx =>
        h x (List.mem_cons_of_mem _ hx)
      rw [selectLoop, calculate_route_score_eq hr]
      dsimp only
      by_cases hlt : scoreM b < scoreM r
      · rw [if_pos hlt, firstMax, if_pos hlt]
        exact ih r hrs
      · rw [if_neg hlt, firstMax, if_neg hlt]
        exact ih b hrs

/-- Decomposition of `b :: l` around its first-seen maximum-score
element: everything strictly before it scores strictly lower, and
nothing scores higher. -/
theorem firstMax_split :
    ∀ (l : List RouteOption) (b : RouteOption),
      ∃ l₁ l₂, b :: l = l₁ ++ firstMax b l :: l₂ ∧
        (∀ r ∈ l₁, scoreM r < scoreM (firstMax b l)) ∧
        (∀ r ∈ b :: l, scoreM r ≤ scoreM (firstMax b l)) := by
  intro l
  induction l with
  | nil =>
      intro b
      exact ⟨[], [], rfl, by simp, by simp [firstMax]⟩
  | cons r rs ih =>
      intro b
      by_cases hlt : scoreM b < scoreM r
      · have hfm : firstMax b (r :: rs) = firstMax r rs := by
          rw [firstMax, if_pos hlt]
        obtain ⟨l₁, l₂, heq, hl₁, hle⟩ := ih r
        rw [hfm]
        refine ⟨b :: l₁, l₂, ?_, ?_, ?_⟩
        · simpa using congrArg (List.cons b) heq
        · intro x hx
          rcases List.mem_cons.mp hx with hx | hx
          · subst hx
            exact lt_of_lt_of_le hlt (hle r (List.mem_cons_self _ _))
          · exact hl₁ x hx
        · intro x hx
          rcases List.mem_cons.mp hx with hx | hx
          · subst hx
            exact le_of_lt (lt_of_lt_of_le hlt (hle r (List.mem_cons_self _ _)))
          · exact hle x hx
      · have hfm : firstMax b (r :: rs) = firstMax b rs := by
          rw [firstMax, if_neg hlt]
        obtain ⟨l₁, l₂, heq, hl₁, hle⟩ := ih b
        rw [hfm]
        cases l₁ with
        | nil =>
            rw [List.nil_append] at heq
            injection heq with hb h2
            refine ⟨[], r :: rs, ?_, by simp, ?_⟩
            · rw [List.nil_append, ← hb]
            · intro x hx
              rw [← hb]
              rcases List.mem_cons.mp hx with hx | hx
              · subst hx; exact le_refl _
              · rcases List.mem_cons.mp hx with hx2 | hx2
                · subst hx2; exact not_lt.mp hlt
                · have hx3 : scoreM x ≤ scoreM (firstMax b rs) :=
                    hle x (List.mem_cons_of_mem _ hx2)
                  rw [← hb] at hx3
                  exact hx3
        | cons b' l₁' =>
            rw [List.cons_append] at heq
            injection heq with hb h2
            subst hb
            have hbfm : scoreM b < scoreM (firstMax b rs) :=
              hl₁ b (List.mem_cons_self _ _)
            refine ⟨b :: r :: l₁', l₂, ?_, ?_, ?_⟩
            · rw [List.cons_append, List.cons_append, ← h2]
            · intro x hx
              rcases List.mem_cons.mp hx with hx | hx
              · subst hx; exact hbfm
              · rcases List.mem_cons.mp hx with hx2 | hx2
                · subst hx2; exact lt_of_le_of_lt (not_lt.mp hlt) hbfm
                · exact hl₁ x (List.mem_cons_of_mem _ hx2)
            · intro x hx
              rcases List.mem_cons.mp hx with hx | hx
              · subst hx; exact le_of_lt hbfm
              · rcases List.mem_cons.mp hx with hx2 | hx2
                · subst hx2
                  exact le_trans (not_lt.mp hlt) (le_of_lt hbfm)
                · exact hle x (List.mem_cons_of_mem _ hx2)

/-- Claim C6 (amended).  For every non-empty list of at most 10
candidates whose score computation is defined (risk score within
`[0, 100]` and no `u64` overflow in `estimated_output * (100 - risk)`),
the selection succeeds and returns the first-seen candidate attaining
the maximal score `estimated_output * (100 - mev_risk_score) / 100`:
the list splits as `l₁ ++ sel :: l₂` with every candidate scoring at
most `scoreM sel` and every candidate before `sel` scoring strictly
less. -/
theorem c6_select_first_argmax :
    ∀ (routes : List RouteOption), routes ≠ [] → routes.length ≤ 10 →
      (∀ r ∈ routes, scoreDefined r) →
      ∃ sel l₁ l₂,
        select_best_route routes = .ok sel ∧
          routes = l₁ ++ sel :: l₂ ∧
          (∀ r ∈ routes, scoreM r ≤ scoreM sel) ∧
          (∀ r ∈ l₁, scoreM r < scoreM sel) := by
  intro routes hne hlen hdef
  cases routes with
  | nil => exact absurd rfl hne
  | cons r0 rest =>
      have h0 : scoreDefined r0 := hdef r0 (List.mem_cons_self _ _)
      have hrest : ∀ x ∈ rest, scoreDefined x := fun x hx =>
        hdef x (List.mem_cons_of_mem _ hx)
      obtain ⟨l₁, l₂, heq, hl₁, hle⟩ := firstMax_split rest r0
      refine ⟨firstMax r0 rest, l₁, l₂, ?_, heq, hle, hl₁⟩
      rw [select_best_route, if_neg (not_not_intro hlen),
        calculate_route_score_eq h0]
      exact selectLoop_eq rest r0 hrest

/-- Claim C6 witness: for the spec's example candidates
`{output 100, risk 50}` (score 50) and `{output 90, risk 10}`
(score 81) — both with defined scores — the theorem applies, and in
both input orders the selection returns the `{output 90, risk 10}`
candidate. -/
theorem c6_select_first_argmax_witness :
    (∃ sel l₁ l₂,
        select_best_route
            [⟨.Jupiter, 100, 0, 50, 0⟩, ⟨.Raydium, 90, 0, 10, 0⟩] =
            .ok sel ∧
          [(⟨.Jupiter, 100, 0, 50, 0⟩ : RouteOption),
              ⟨.Raydium, 90, 0, 10, 0⟩] = l₁ ++ sel :: l₂ ∧
          (∀ r ∈ [(⟨.Jupiter, 100, 0, 50, 0⟩ : RouteOption),
              ⟨.Raydium, 90, 0, 10, 0⟩], scoreM r ≤ scoreM sel) ∧
          (∀ r ∈ l₁, scoreM r < scoreM sel)) ∧
      select_best_route
          [⟨.Jupiter, 100, 0, 50, 0⟩, ⟨.Raydium, 90, 0, 10, 0⟩] =
        .ok ⟨.Raydium, 90, 0, 10, 0⟩ ∧
      select_best_route
          [⟨.Raydium, 90, 0, 10, 0⟩, ⟨.Jupiter, 100, 0, 50, 0⟩] =
        .ok ⟨.Raydium, 90, 0, 10, 0⟩ := by
  refine ⟨c6_select_first_argmax _ (by decide) (by decide) (by decide),
    by decide, by decide⟩

end Claims

end Zephyra
